import Mathlib

/-!
Shallow embedding of src/Ec2-start-stop-instances.py.

The program is an AWS Lambda that, on each invocation, lists EC2 instances
tagged Reboot=WORKDAY, and for each one applies a UTC time-of-day policy:
inside the window [03:30:00, 08:00:00) an instance in state "stopped" is
started; outside the window an instance in state "running" is stopped.
Each action (and each per-instance failure) is reported through an SNS
notification whose topic ARN is resolved from SSM at module import time.

External effects (SSM get_parameter, EC2 describe/start/stop, SNS publish)
are modelled by a Provider record of response functions, and the calls the
program issues are collected in an explicit trace. Wall-clock readings
(execution timestamp, duration) enter as opaque string parameters.
-/

namespace Ec2Scheduler

/-- Calls the program can issue against the cloud provider. -/
inductive ApiCall where
  | describeInstances : ApiCall
  | startInstances (id : String) : ApiCall
  | stopInstances (id : String) : ApiCall
  | snsPublish (topicArn subject message : String) : ApiCall
  deriving Repr, DecidableEq

/-- One Key/Value tag of an EC2 instance (an element of the "Tags" list). -/
structure Tag where
  key : String
  value : String
  deriving Repr, DecidableEq

/-- Fields of one instance record as read from describe_instances: the dict
accesses on lines 58-61 of the source. Optional fields model keys that may
be absent from the dict ("PrivateIpAddress", "InstanceType", "Tags"). -/
structure Ec2Instance where
  instanceId : String
  stateName : String
  privateIpAddress : Option String
  instanceType : Option String
  tags : Option (List Tag)
  deriving Repr, DecidableEq

/-- One reservation of the describe_instances response: a list of instances. -/
structure Reservation where
  instances : List Ec2Instance
  deriving Repr, DecidableEq

/-- Responses the environment gives to each provider call. An Except.error
models the boto3 call raising an exception with the given message. -/
structure Provider where
  describeResult : Except String (List Reservation)
  startResult : String → Except String Unit
  stopResult : String → Except String Unit
  publishResult : String → String → Except String Unit

/-- Line 12 of the source: the hard-coded AWS region. -/
def region : String := "us-east-2"

/-- Line 29 of the source: the hard-coded Lambda function name. -/
def LAMBDA_NAME : String := "ec2-scheduler-lambda"

/-- Line 82: workday_start = 03:30:00, as seconds since midnight UTC. -/
def workday_start : Nat := 3 * 3600 + 30 * 60

/-- Line 83: workday_stop = 08:00:00, as seconds since midnight UTC. -/
def workday_stop : Nat := 8 * 3600

/-- Line 88: the test workday_start <= current_utc_time < workday_stop,
over times measured in seconds since midnight UTC. -/
def inWindow (t : Nat) : Bool := decide (workday_start ≤ t ∧ t < workday_stop)

/-- Lines 64-76: scan of the "Tags" list. Name, Environment and Owner each
default to "N/A" and are overwritten by the value of a matching tag, later
tags shadowing earlier ones exactly as the Python for-loop does; a missing
"Tags" key leaves all three defaults. The accumulator and the result are
the triple (name, environment, owner); tagStep is one loop iteration. -/
def tagStep (acc : String × String × String) (tag : Tag) :
    String × String × String :=
  if tag.key == "Name" then (tag.value, acc.2.1, acc.2.2)
  else if tag.key == "Environment" then (acc.1, tag.value, acc.2.2)
  else if tag.key == "Owner" then (acc.1, acc.2.1, tag.value)
  else acc

/-- Lines 64-76: the whole tag scan, folding tagStep over the "Tags" list
from its initial defaults. -/
def extractTags (tags : Option (List Tag)) : String × String × String :=
  match tags with
  | none => ("N/A", "N/A", "N/A")
  | some ts => ts.foldl tagStep ("N/A", "N/A", "N/A")

/-- Line 60: instance.get with default "N/A" for the private IP address. -/
def instanceIpOf (inst : Ec2Instance) : String :=
  inst.privateIpAddress.getD "N/A"

/-- Line 61: instance.get with default "N/A" for the instance type. -/
def instanceTypeOf (inst : Ec2Instance) : String :=
  inst.instanceType.getD "N/A"

/-- One labelled line of the notification message, ending in a newline. -/
def msgLine (label value : String) : String := label ++ value ++ "\n"

/-- Lines 110-125: the success notification body, built by concatenating
the labelled lines of the f-string. -/
def buildSuccessMessage (action instance_id instance_name instance_region
    instance_type previous_state current_state environment owner
    execTime duration : String) : String :=
  msgLine "Action        : " action ++
  msgLine "Instance ID   : " instance_id ++
  msgLine "Instance Name : " instance_name ++
  msgLine "Region        : " instance_region ++
  msgLine "Instance Type : " instance_type ++
  msgLine "Previous State: " previous_state ++
  msgLine "Current State : " current_state ++
  msgLine "Environment   : " environment ++
  msgLine "Owner         : " owner ++
  msgLine "Triggered By  : " "EventBridge Rule - ec2-start-stop-instances" ++
  msgLine "Lambda Name   : " LAMBDA_NAME ++
  msgLine "Execution Time: " execTime ++
  msgLine "Duration      : " (duration ++ " seconds") ++
  "Result        : SUCCESS"

/-- Lines 131-147: the failure notification body composed in the except
block. The action shown is "N/A" when no action had been assigned yet, the
current state is the literal "ERROR", and the error text is appended. -/
def buildFailureMessage (actionShown instance_id instance_name instance_region
    instance_type previous_state environment owner
    execTime duration errText : String) : String :=
  msgLine "Action        : " actionShown ++
  msgLine "Instance ID   : " instance_id ++
  msgLine "Instance Name : " instance_name ++
  msgLine "Region        : " instance_region ++
  msgLine "Instance Type : " instance_type ++
  msgLine "Previous State: " previous_state ++
  msgLine "Current State : " "ERROR" ++
  msgLine "Environment   : " environment ++
  msgLine "Owner         : " owner ++
  msgLine "Triggered By  : " "EventBridge Rule - ec2-start-stop-instances" ++
  msgLine "Lambda Name   : " LAMBDA_NAME ++
  msgLine "Execution Time: " execTime ++
  msgLine "Duration      : " (duration ++ " seconds") ++
  msgLine "Result        : " "FAILURE" ++
  ("Error         : " ++ errText)

/-- Outcome of send_sns_notification (lines 31-42): the Python-level result
(ok means the function returned normally, error would mean it raised), the
log lines it wrote, and the provider calls it attempted. -/
structure SnsOutcome where
  result : Except String Unit
  logs : List String
  calls : List ApiCall
  deriving Repr

/-- Lines 31-42: send_sns_notification publishes once to the pre-resolved
topic; a publish exception is caught and logged inside the function, so the
function itself returns normally in both cases. -/
def send_sns_notification (p : Provider) (topicArn subject message : String) :
    SnsOutcome :=
  match p.publishResult subject message with
  | Except.ok _ =>
    { result := Except.ok ()
      logs := ["SNS Notification sent: " ++ subject]
      calls := [ApiCall.snsPublish topicArn subject message] }
  | Except.error e =>
    { result := Except.ok ()
      logs := ["Failed to send SNS notification: " ++ e]
      calls := [ApiCall.snsPublish topicArn subject message] }

/-- Result of processing one instance in the loop body (lines 57-148):
the action recorded (some "STARTED" / some "STOPPED" / none), whether the
except block ran, the (subject, message) handed to send_sns_notification
if any, and the provider calls issued while processing this instance. -/
structure InstanceReport where
  action : Option String
  failed : Bool
  notif : Option (String × String)
  calls : List ApiCall
  deriving Repr, DecidableEq

/-- Lines 57-148: the body of the inner for-loop for one instance.
Inside the window a "stopped" instance gets start_instances, outside it a
"running" instance gets stop_instances; any other state leaves action
as None so no notification is sent (line 108). An exception from the
start/stop call lands in the except block, which composes the failure
message (action still None there, hence "N/A" and subject "FAILED") and
sends it best-effort. send_sns_notification never raises. -/
def processInstance (p : Provider) (topicArn : String) (t : Nat)
    (execTime duration : String) (inst : Ec2Instance) : InstanceReport :=
  let instance_id := inst.instanceId
  let instance_state := inst.stateName
  let instance_type := instanceTypeOf inst
  let tagTriple := extractTags inst.tags
  let instance_name := tagTriple.1
  let environment := tagTriple.2.1
  let owner := tagTriple.2.2
  let previous_state := instance_state
  let failReport := fun (errText : String) (attempted : List ApiCall) =>
    let message := buildFailureMessage "N/A" instance_id instance_name region
      instance_type previous_state environment owner execTime duration errText
    let sns := send_sns_notification p topicArn "EC2 Instance FAILED" message
    { action := none, failed := true,
      notif := some ("EC2 Instance FAILED", message),
      calls := attempted ++ sns.calls : InstanceReport }
  let okReport := fun (action current_state : String) (attempted : List ApiCall) =>
    let message := buildSuccessMessage action instance_id instance_name region
      instance_type previous_state current_state environment owner
      execTime duration
    let sns := send_sns_notification p topicArn ("EC2 Instance " ++ action) message
    { action := some action, failed := false,
      notif := some ("EC2 Instance " ++ action, message),
      calls := attempted ++ sns.calls : InstanceReport }
  if inWindow t then
    if instance_state == "stopped" then
      match p.startResult instance_id with
      | Except.error e => failReport e [ApiCall.startInstances instance_id]
      | Except.ok _ => okReport "STARTED" "running" [ApiCall.startInstances instance_id]
    else
      { action := none, failed := false, notif := none, calls := [] }
  else
    if instance_state == "running" then
      match p.stopResult instance_id with
      | Except.error e => failReport e [ApiCall.stopInstances instance_id]
      | Except.ok _ => okReport "STOPPED" "stopped" [ApiCall.stopInstances instance_id]
    else
      { action := none, failed := false, notif := none, calls := [] }

/-- Lines 56-148: the for-loop over the flattened instance list, written as
the recursion the loop performs; each iteration is one processInstance. -/
def processInstances (p : Provider) (topicArn : String) (t : Nat)
    (execTime duration : String) : List Ec2Instance → List InstanceReport
  | [] => []
  | inst :: rest =>
    processInstance p topicArn t execTime duration inst ::
      processInstances p topicArn t execTime duration rest

/-- The value returned by lambda_handler on success (lines 152-155). -/
structure HandlerResponse where
  statusCode : Nat
  body : String
  deriving Repr, DecidableEq

/-- Outcome of one whole run: the Python-level result of the handler (or of
module import), the per-instance reports, and the full provider call trace. -/
structure RunOutcome where
  result : Except String HandlerResponse
  reports : List InstanceReport
  calls : List ApiCall
  deriving Repr

/-- Lines 45-155: lambda_handler. describe_instances is called outside any
try block, so its exception propagates and aborts the handler; otherwise
every instance of every reservation is processed and the fixed 200
response is returned unconditionally. -/
def lambda_handler (p : Provider) (topicArn : String) (t : Nat)
    (execTime duration : String) : RunOutcome :=
  match p.describeResult with
  | Except.error e =>
    { result := Except.error e, reports := [], calls := [ApiCall.describeInstances] }
  | Except.ok reservations =>
    let insts := (reservations.map Reservation.instances).flatten
    let reports := processInstances p topicArn t execTime duration insts
    { result := Except.ok
        { statusCode := 200, body := "EC2 start/stop check completed successfully." }
      reports := reports
      calls := ApiCall.describeInstances :: (reports.map InstanceReport.calls).flatten }

/-- The SSM client seen at module import: get_parameter by name. -/
structure SsmClient where
  getParameter : String → Except String String

/-- Lines 15-23: get_sns_topic_arn reads the parameter name from the
environment (default "ec2-notification-sns"), queries SSM, and re-raises
any exception after logging it. -/
def get_sns_topic_arn (ssm : SsmClient) (envParamName : Option String) :
    Except String String :=
  let parameter_name := envParamName.getD "ec2-notification-sns"
  match ssm.getParameter parameter_name with
  | Except.ok v => Except.ok v
  | Except.error e => Except.error e

/-- Lines 26 and 45-155: module import runs get_sns_topic_arn at top level
(line 26); if it raises, the module fails to load and lambda_handler never
runs, so no provider call is issued at all. -/
def runModule (ssm : SsmClient) (envParamName : Option String) (p : Provider)
    (t : Nat) (execTime duration : String) : RunOutcome :=
  match get_sns_topic_arn ssm envParamName with
  | Except.error e => { result := Except.error e, reports := [], calls := [] }
  | Except.ok arn => lambda_handler p arn t execTime duration

/-! Substring containment, used to state that a composed notification
message carries a field value verbatim. -/

/-- The string s contains sub as a contiguous substring. -/
def strContains (s sub : String) : Prop := ∃ a b : String, s = a ++ sub ++ b

theorem string_append_assoc (a b c : String) : a ++ b ++ c = a ++ (b ++ c) := by
  apply String.ext
  simp [String.data_append, List.append_assoc]

theorem strContains_appendLeft (s u sub : String) (h : strContains s sub) :
    strContains (s ++ u) sub := by
  obtain ⟨a, b, rfl⟩ := h
  exact ⟨a, b ++ u, by simp [string_append_assoc]⟩

theorem strContains_appendRight (u s sub : String) (h : strContains s sub) :
    strContains (u ++ s) sub := by
  obtain ⟨a, b, rfl⟩ := h
  exact ⟨u ++ a, b, by simp [string_append_assoc]⟩

theorem strContains_msgLine (label v : String) : strContains (msgLine label v) v :=
  ⟨label, "\n", rfl⟩

/-! Concrete fixtures used by witnesses and counterexamples. -/

/-- A provider whose every call succeeds, returning one empty reservation list. -/
def trivialProvider : Provider :=
  { describeResult := Except.ok []
    startResult := fun _ => Except.ok ()
    stopResult := fun _ => Except.ok ()
    publishResult := fun _ _ => Except.ok () }

/-- A provider whose start and stop calls always raise. -/
def failingEc2Provider : Provider :=
  { describeResult := Except.ok []
    startResult := fun _ => Except.error "boom-start"
    stopResult := fun _ => Except.error "boom-stop"
    publishResult := fun _ _ => Except.ok () }

/-- A concrete instance in state "stopped" with all three tags present. -/
def instStopped : Ec2Instance :=
  { instanceId := "i-0aaa"
    stateName := "stopped"
    privateIpAddress := some "10.0.0.1"
    instanceType := some "t2.micro"
    tags := some [⟨"Name", "web-1"⟩, ⟨"Environment", "dev"⟩, ⟨"Owner", "alice"⟩] }

/-- A concrete instance in state "running" with all three tags present. -/
def instRunning : Ec2Instance :=
  { instanceId := "i-0bbb"
    stateName := "running"
    privateIpAddress := some "10.0.0.2"
    instanceType := some "t3.large"
    tags := some [⟨"Name", "web-2"⟩, ⟨"Environment", "prod"⟩, ⟨"Owner", "bob"⟩] }

/-- A concrete instance in the transitional state "stopping". -/
def instStopping : Ec2Instance :=
  { instanceId := "i-0ccc"
    stateName := "stopping"
    privateIpAddress := none
    instanceType := none
    tags := none }

/-- An SSM client whose get_parameter call always raises. -/
def failingSsm : SsmClient :=
  { getParameter := fun _ => Except.error "parameter-missing" }

/-- A provider whose SNS publish call always raises. -/
def failingSnsProvider : Provider :=
  { describeResult := Except.ok []
    startResult := fun _ => Except.ok ()
    stopResult := fun _ => Except.ok ()
    publishResult := fun _ _ => Except.error "publish-denied" }

/-- A provider that returns two instances and then fails every
start, stop and publish call. -/
def allFailProvider : Provider :=
  { describeResult := Except.ok [{ instances := [instStopped, instRunning] }]
    startResult := fun _ => Except.error "start-denied"
    stopResult := fun _ => Except.error "stop-denied"
    publishResult := fun _ _ => Except.error "publish-denied" }

/-- The tags (if any) of an instance record hold no tag with key k; this is
what "the tag is missing" means for the scan of lines 69-76. -/
def noTagKey (tags : Option (List Tag)) (k : String) : Prop :=
  ∀ ts, tags = some ts → ∀ tg ∈ ts, tg.key ≠ k

/-! Helper lemmas shared by the claim theorems. -/

theorem send_sns_notification_calls (p : Provider) (arn subj msg : String) :
    (send_sns_notification p arn subj msg).calls =
      [ApiCall.snsPublish arn subj msg] := by
  cases hp : p.publishResult subj msg <;> simp [send_sns_notification, hp]

theorem send_sns_notification_result (p : Provider) (arn subj msg : String) :
    (send_sns_notification p arn subj msg).result = Except.ok () := by
  cases hp : p.publishResult subj msg <;> simp [send_sns_notification, hp]

theorem processInstances_append (p : Provider) (arn : String) (t : Nat)
    (eT dur : String) (l1 l2 : List Ec2Instance) :
    processInstances p arn t eT dur (l1 ++ l2) =
      processInstances p arn t eT dur l1 ++ processInstances p arn t eT dur l2 := by
  induction l1 with
  | nil => rfl
  | cons i rest ih => simp [processInstances, ih]

theorem processInstances_eq_map (p : Provider) (arn : String) (t : Nat)
    (eT dur : String) (l : List Ec2Instance) :
    processInstances p arn t eT dur l = l.map (processInstance p arn t eT dur) := by
  induction l with
  | nil => rfl
  | cons i rest ih => simp [processInstances, ih]

theorem processInstances_length (p : Provider) (arn : String) (t : Nat)
    (eT dur : String) (l : List Ec2Instance) :
    (processInstances p arn t eT dur l).length = l.length := by
  rw [processInstances_eq_map]; exact List.length_map l _

/-- C1: for every instance processed, inside the UTC window
[03:30:00, 08:00:00) an instance whose state is "stopped" yields action
START (the start API is invoked, and on success the action "STARTED" is
recorded) while a "running" instance yields no action and no call; outside
the window a "running" instance yields action STOP (the stop API is
invoked, and on success "STOPPED" is recorded) while a "stopped" instance
yields no action and no call. -/
theorem C1_time_window_policy (p : Provider) (arn : String) (t : Nat)
    (eT dur : String) (inst : Ec2Instance) :
    (inWindow t = true → inst.stateName = "stopped" →
      ApiCall.startInstances inst.instanceId ∈
        (processInstance p arn t eT dur inst).calls ∧
      (p.startResult inst.instanceId = Except.ok () →
        (processInstance p arn t eT dur inst).action = some "STARTED")) ∧
    (inWindow t = true → inst.stateName = "running" →
      (processInstance p arn t eT dur inst).action = none ∧
      (processInstance p arn t eT dur inst).calls = []) ∧
    (inWindow t = false → inst.stateName = "running" →
      ApiCall.stopInstances inst.instanceId ∈
        (processInstance p arn t eT dur inst).calls ∧
      (p.stopResult inst.instanceId = Except.ok () →
        (processInstance p arn t eT dur inst).action = some "STOPPED")) ∧
    (inWindow t = false → inst.stateName = "stopped" →
      (processInstance p arn t eT dur inst).action = none ∧
      (processInstance p arn t eT dur inst).calls = []) := by
  refine ⟨fun hw hs => ⟨?_, fun hok => ?_⟩, fun hw hs => ⟨?_, ?_⟩,
    fun hw hs => ⟨?_, fun hok => ?_⟩, fun hw hs => ⟨?_, ?_⟩⟩
  · cases hr : p.startResult inst.instanceId <;>
      simp [processInstance, hw, hs, hr, send_sns_notification_calls]
  · simp [processInstance, hw, hs, hok]
  · simp [processInstance, hw, hs]
  · simp [processInstance, hw, hs]
  · cases hr : p.stopResult inst.instanceId <;>
      simp [processInstance, hw, hs, hr, send_sns_notification_calls]
  · simp [processInstance, hw, hs, hok]
  · simp [processInstance, hw, hs]
  · simp [processInstance, hw, hs]

/-- Witness for C1 at concrete inputs: at 20000 s (inside the window) the
stopped fixture gets a start call; at 30000 s (outside) the running fixture
gets action "STOPPED" under the all-succeeding provider. -/
theorem C1_time_window_policy_witness :
    ApiCall.startInstances instStopped.instanceId ∈
      (processInstance trivialProvider "arn" 20000 "T" "0" instStopped).calls ∧
    (processInstance trivialProvider "arn" 30000 "T" "0" instRunning).action =
      some "STOPPED" :=
  ⟨((C1_time_window_policy trivialProvider "arn" 20000 "T" "0" instStopped).1
      (by decide) rfl).1,
   ((C1_time_window_policy trivialProvider "arn" 30000 "T" "0" instRunning).2.2.1
      (by decide) rfl).2 rfl⟩

/-- C2 as stated is false on the code: inside the window the code starts
only instances whose state is exactly "stopped". The fixture in the
transitional state "stopping" is not already running, yet at 20000 s
(inside the window) no start call is issued for it. -/
theorem C2_counterexample :
    ¬ (∀ (p : Provider) (arn : String) (t : Nat) (eT dur : String)
        (inst : Ec2Instance),
        (inWindow t = true → inst.stateName ≠ "running" →
          ApiCall.startInstances inst.instanceId ∈
            (processInstance p arn t eT dur inst).calls) ∧
        (inWindow t = false → inst.stateName ≠ "stopped" →
          ApiCall.stopInstances inst.instanceId ∈
            (processInstance p arn t eT dur inst).calls)) := by
  intro h
  have h1 := (h trivialProvider "arn" 20000 "T" "0" instStopping).1
    (by decide) (by decide)
  have h2 : (processInstance trivialProvider "arn" 20000 "T" "0" instStopping).calls
      = [] := by decide
  rw [h2] at h1
  exact absurd h1 (List.not_mem_nil _)

/-- C2 amended: the action depends on the exact state name, not on "is it
already in the target state": inside the window exactly the instances in
state "stopped" are started (any other state, running or transitional,
yields no call); outside the window exactly the instances in state
"running" are stopped (any other state yields no call). -/
theorem C2_amended_policy (p : Provider) (arn : String) (t : Nat)
    (eT dur : String) (inst : Ec2Instance) :
    (inWindow t = true → inst.stateName = "stopped" →
      ApiCall.startInstances inst.instanceId ∈
        (processInstance p arn t eT dur inst).calls) ∧
    (inWindow t = true → inst.stateName ≠ "stopped" →
      (processInstance p arn t eT dur inst).calls = []) ∧
    (inWindow t = false → inst.stateName = "running" →
      ApiCall.stopInstances inst.instanceId ∈
        (processInstance p arn t eT dur inst).calls) ∧
    (inWindow t = false → inst.stateName ≠ "running" →
      (processInstance p arn t eT dur inst).calls = []) := by
  refine ⟨fun hw hs => ?_, fun hw hs => ?_, fun hw hs => ?_, fun hw hs => ?_⟩
  · cases hr : p.startResult inst.instanceId <;>
      simp [processInstance, hw, hs, hr, send_sns_notification_calls]
  · simp [processInstance, hw, hs]
  · cases hr : p.stopResult inst.instanceId <;>
      simp [processInstance, hw, hs, hr, send_sns_notification_calls]
  · simp [processInstance, hw, hs]

/-- Witness for the amended C2: the "stopping" fixture gets no call inside
the window, and the stopped fixture gets its start call. -/
theorem C2_amended_policy_witness :
    (processInstance trivialProvider "arn" 20000 "T" "0" instStopping).calls = [] ∧
    ApiCall.startInstances instStopped.instanceId ∈
      (processInstance trivialProvider "arn" 20000 "T" "0" instStopped).calls :=
  ⟨(C2_amended_policy trivialProvider "arn" 20000 "T" "0" instStopping).2.1
      (by decide) (by decide),
   (C2_amended_policy trivialProvider "arn" 20000 "T" "0" instStopped).1
      (by decide) rfl⟩

/-- C3: a failure while processing one instance (its report has
failed = true) does not abort the run: the loop still processes every
preceding and following instance, each with its own independent report,
and the number of reports equals the number of instances. -/
theorem C3_failure_isolation (p : Provider) (arn : String) (t : Nat)
    (eT dur : String) (pre post : List Ec2Instance) (bad : Ec2Instance)
    (_hfail : (processInstance p arn t eT dur bad).failed = true) :
    processInstances p arn t eT dur (pre ++ bad :: post) =
      processInstances p arn t eT dur pre ++
        processInstance p arn t eT dur bad ::
          processInstances p arn t eT dur post ∧
    (processInstances p arn t eT dur (pre ++ bad :: post)).length =
      pre.length + 1 + post.length := by
  constructor
  · rw [processInstances_append]
    rfl
  · rw [processInstances_length]
    simp
    omega

theorem strContains_msgLine_left (label v suf : String) :
    strContains (msgLine label (v ++ suf)) v :=
  ⟨label, suf ++ "\n", by simp [msgLine, string_append_assoc]⟩

theorem buildSuccessMessage_contains (action instance_id instance_name
    instance_region instance_type previous_state current_state environment
    owner execTime duration : String) :
    strContains (buildSuccessMessage action instance_id instance_name
      instance_region instance_type previous_state current_state environment
      owner execTime duration) action ∧
    strContains (buildSuccessMessage action instance_id instance_name
      instance_region instance_type previous_state current_state environment
      owner execTime duration) instance_id ∧
    strContains (buildSuccessMessage action instance_id instance_name
      instance_region instance_type previous_state current_state environment
      owner execTime duration) instance_name ∧
    strContains (buildSuccessMessage action instance_id instance_name
      instance_region instance_type previous_state current_state environment
      owner execTime duration) instance_region ∧
    strContains (buildSuccessMessage action instance_id instance_name
      instance_region instance_type previous_state current_state environment
      owner execTime duration) instance_type ∧
    strContains (buildSuccessMessage action instance_id instance_name
      instance_region instance_type previous_state current_state environment
      owner execTime duration) previous_state ∧
    strContains (buildSuccessMessage action instance_id instance_name
      instance_region instance_type previous_state current_state environment
      owner execTime duration) current_state ∧
    strContains (buildSuccessMessage action instance_id instance_name
      instance_region instance_type previous_state current_state environment
      owner execTime duration) environment ∧
    strContains (buildSuccessMessage action instance_id instance_name
      instance_region instance_type previous_state current_state environment
      owner execTime duration) owner ∧
    strContains (buildSuccessMessage action instance_id instance_name
      instance_region instance_type previous_state current_state environment
      owner execTime duration) "EventBridge Rule - ec2-start-stop-instances" ∧
    strContains (buildSuccessMessage action instance_id instance_name
      instance_region instance_type previous_state current_state environment
      owner execTime duration) execTime ∧
    strContains (buildSuccessMessage action instance_id instance_name
      instance_region instance_type previous_state current_state environment
      owner execTime duration) duration := by
  unfold buildSuccessMessage
  refine ⟨?_, ?_, ?_, ?_, ?_, ?_, ?_, ?_, ?_, ?_, ?_, ?_⟩
  · iterate 13 apply strContains_appendLeft
    exact strContains_msgLine _ _
  · iterate 12 apply strContains_appendLeft
    apply strContains_appendRight
    exact strContains_msgLine _ _
  · iterate 11 apply strContains_appendLeft
    apply strContains_appendRight
    exact strContains_msgLine _ _
  · iterate 10 apply strContains_appendLeft
    apply strContains_appendRight
    exact strContains_msgLine _ _
  · iterate 9 apply strContains_appendLeft
    apply strContains_appendRight
    exact strContains_msgLine _ _
  · iterate 8 apply strContains_appendLeft
    apply strContains_appendRight
    exact strContains_msgLine _ _
  · iterate 7 apply strContains_appendLeft
    apply strContains_appendRight
    exact strContains_msgLine _ _
  · iterate 6 apply strContains_appendLeft
    apply strContains_appendRight
    exact strContains_msgLine _ _
  · iterate 5 apply strContains_appendLeft
    apply strContains_appendRight
    exact strContains_msgLine _ _
  · iterate 4 apply strContains_appendLeft
    apply strContains_appendRight
    exact strContains_msgLine _ _
  · iterate 2 apply strContains_appendLeft
    apply strContains_appendRight
    exact strContains_msgLine _ _
  · apply strContains_appendLeft
    apply strContains_appendRight
    exact strContains_msgLine_left _ _ _

theorem processInstance_action_notif (p : Provider) (arn : String) (t : Nat)
    (eT dur : String) (inst : Ec2Instance) (a : String)
    (hact : (processInstance p arn t eT dur inst).action = some a) :
    ∃ cur, (cur = "running" ∨ cur = "stopped") ∧
      (processInstance p arn t eT dur inst).notif =
        some ("EC2 Instance " ++ a,
          buildSuccessMessage a inst.instanceId (extractTags inst.tags).1
            region (instanceTypeOf inst) inst.stateName cur
            (extractTags inst.tags).2.1 (extractTags inst.tags).2.2 eT dur) := by
  by_cases hw : inWindow t
  · by_cases hs : inst.stateName == "stopped"
    · cases hr : p.startResult inst.instanceId with
      | error e => simp [processInstance, hw, hs, hr] at hact
      | ok u =>
        have ha : "STARTED" = a := by
          have := hact
          simp [processInstance, hw, hs, hr] at this
          exact this
        refine ⟨"running", Or.inl rfl, ?_⟩
        rw [← ha]
        simp [processInstance, hw, hs, hr]
    · exfalso
      have := hact
      simp [processInstance, hw, hs] at this
  · by_cases hs : inst.stateName == "running"
    · cases hr : p.stopResult inst.instanceId with
      | error e => simp [processInstance, hw, hs, hr] at hact
      | ok u =>
        have ha : "STOPPED" = a := by
          have := hact
          simp [processInstance, hw, hs, hr] at this
          exact this
        refine ⟨"stopped", Or.inr rfl, ?_⟩
        rw [← ha]
        simp [processInstance, hw, hs, hr]
    · exfalso
      have := hact
      simp [processInstance, hw, hs] at this

/-- Witness for C3: under the provider whose start and stop calls always
raise, the stopped fixture fails inside the window, yet the list of three
instances still yields three reports in order. -/
theorem C3_failure_isolation_witness :
    processInstances failingEc2Provider "arn" 20000 "T" "0"
        ([instRunning] ++ instStopped :: [instStopping]) =
      processInstances failingEc2Provider "arn" 20000 "T" "0" [instRunning] ++
        processInstance failingEc2Provider "arn" 20000 "T" "0" instStopped ::
          processInstances failingEc2Provider "arn" 20000 "T" "0" [instStopping] ∧
    (processInstances failingEc2Provider "arn" 20000 "T" "0"
        ([instRunning] ++ instStopped :: [instStopping])).length = 3 :=
  C3_failure_isolation failingEc2Provider "arn" 20000 "T" "0"
    [instRunning] [instStopping] instStopped (by decide)

/-- C4: whenever an action is taken on an instance (action = some a), the
composed success notification contains, verbatim, the action, the instance
identifier, the name tag value X, the region, the instance type, the
previous state, the environment tag value Y, the owner tag value Z, the
trigger source, the execution timestamp, the duration, and a current
state; in particular for an instance whose tag scan yields (X, Y, Z) the
message contains X, Y and Z verbatim. -/
theorem C4_notification_fields (p : Provider) (arn : String) (t : Nat)
    (eT dur : String) (inst : Ec2Instance) (X Y Z a subj msg : String)
    (htags : extractTags inst.tags = (X, Y, Z))
    (hact : (processInstance p arn t eT dur inst).action = some a)
    (hnotif : (processInstance p arn t eT dur inst).notif = some (subj, msg)) :
    strContains msg a ∧ strContains msg inst.instanceId ∧ strContains msg X ∧
    strContains msg region ∧ strContains msg (instanceTypeOf inst) ∧
    strContains msg inst.stateName ∧ strContains msg Y ∧ strContains msg Z ∧
    strContains msg "EventBridge Rule - ec2-start-stop-instances" ∧
    strContains msg eT ∧ strContains msg dur ∧
    (∃ cur, (cur = "running" ∨ cur = "stopped") ∧ strContains msg cur) := by
  obtain ⟨cur, hcur, hmsg⟩ := processInstance_action_notif p arn t eT dur inst a hact
  rw [hnotif] at hmsg
  rw [Option.some.injEq, Prod.mk.injEq] at hmsg
  obtain ⟨hsubj, hmsg2⟩ := hmsg
  subst hmsg2
  rw [htags]
  have hC := buildSuccessMessage_contains a inst.instanceId X region
    (instanceTypeOf inst) inst.stateName cur Y Z eT dur
  exact ⟨hC.1, hC.2.1, hC.2.2.1, hC.2.2.2.1, hC.2.2.2.2.1, hC.2.2.2.2.2.1,
    hC.2.2.2.2.2.2.2.1, hC.2.2.2.2.2.2.2.2.1, hC.2.2.2.2.2.2.2.2.2.1,
    hC.2.2.2.2.2.2.2.2.2.2.1, hC.2.2.2.2.2.2.2.2.2.2.2,
    ⟨cur, hcur, hC.2.2.2.2.2.2.1⟩⟩

/-- Witness for C4 at concrete inputs: the started fixture's message
contains its three tag values "web-1", "dev" and "alice" verbatim. -/
theorem C4_notification_fields_witness :
    strContains (buildSuccessMessage "STARTED" instStopped.instanceId
      (extractTags instStopped.tags).1 region (instanceTypeOf instStopped)
      instStopped.stateName "running" (extractTags instStopped.tags).2.1
      (extractTags instStopped.tags).2.2 "T" "0.10") "web-1" ∧
    strContains (buildSuccessMessage "STARTED" instStopped.instanceId
      (extractTags instStopped.tags).1 region (instanceTypeOf instStopped)
      instStopped.stateName "running" (extractTags instStopped.tags).2.1
      (extractTags instStopped.tags).2.2 "T" "0.10") "dev" ∧
    strContains (buildSuccessMessage "STARTED" instStopped.instanceId
      (extractTags instStopped.tags).1 region (instanceTypeOf instStopped)
      instStopped.stateName "running" (extractTags instStopped.tags).2.1
      (extractTags instStopped.tags).2.2 "T" "0.10") "alice" :=
  have h := C4_notification_fields trivialProvider "arn" 20000 "T" "0.10"
    instStopped "web-1" "dev" "alice" "STARTED" ("EC2 Instance " ++ "STARTED")
    (buildSuccessMessage "STARTED" instStopped.instanceId
      (extractTags instStopped.tags).1 region (instanceTypeOf instStopped)
      instStopped.stateName "running" (extractTags instStopped.tags).2.1
      (extractTags instStopped.tags).2.2 "T" "0.10")
    (by decide) rfl rfl
  ⟨h.2.2.1, h.2.2.2.2.2.2.1, h.2.2.2.2.2.2.2.1⟩

theorem foldl_tagStep_fst (ts : List Tag) (acc : String × String × String)
    (h : ∀ tg ∈ ts, tg.key ≠ "Name") :
    (ts.foldl tagStep acc).1 = acc.1 := by
  induction ts generalizing acc with
  | nil => rfl
  | cons tg rest ih =>
    have hk : tg.key ≠ "Name" := h tg (List.mem_cons_self tg rest)
    have hstep : (tagStep acc tg).1 = acc.1 := by
      by_cases h2 : tg.key = "Environment"
      · simp [tagStep, hk, h2]
      · by_cases h3 : tg.key = "Owner"
        · simp [tagStep, hk, h2, h3]
        · simp [tagStep, hk, h2, h3]
    calc (List.foldl tagStep (tagStep acc tg) rest).1
        = (tagStep acc tg).1 := ih _ (fun tg2 hm => h tg2 (List.mem_cons_of_mem _ hm))
      _ = acc.1 := hstep

theorem foldl_tagStep_env (ts : List Tag) (acc : String × String × String)
    (h : ∀ tg ∈ ts, tg.key ≠ "Environment") :
    (ts.foldl tagStep acc).2.1 = acc.2.1 := by
  induction ts generalizing acc with
  | nil => rfl
  | cons tg rest ih =>
    have hk : tg.key ≠ "Environment" := h tg (List.mem_cons_self tg rest)
    have hstep : (tagStep acc tg).2.1 = acc.2.1 := by
      by_cases h1 : tg.key = "Name"
      · simp [tagStep, h1]
      · by_cases h3 : tg.key = "Owner"
        · simp [tagStep, h1, hk, h3]
        · simp [tagStep, h1, hk, h3]
    calc (List.foldl tagStep (tagStep acc tg) rest).2.1
        = (tagStep acc tg).2.1 := ih _ (fun tg2 hm => h tg2 (List.mem_cons_of_mem _ hm))
      _ = acc.2.1 := hstep

theorem foldl_tagStep_owner (ts : List Tag) (acc : String × String × String)
    (h : ∀ tg ∈ ts, tg.key ≠ "Owner") :
    (ts.foldl tagStep acc).2.2 = acc.2.2 := by
  induction ts generalizing acc with
  | nil => rfl
  | cons tg rest ih =>
    have hk : tg.key ≠ "Owner" := h tg (List.mem_cons_self tg rest)
    have hstep : (tagStep acc tg).2.2 = acc.2.2 := by
      by_cases h1 : tg.key = "Name"
      · simp [tagStep, h1]
      · by_cases h2 : tg.key = "Environment"
        · simp [tagStep, h1, h2, hk]
        · simp [tagStep, h1, h2, hk]
    calc (List.foldl tagStep (tagStep acc tg) rest).2.2
        = (tagStep acc tg).2.2 := ih _ (fun tg2 hm => h tg2 (List.mem_cons_of_mem _ hm))
      _ = acc.2.2 := hstep

/-- C5: a missing Name, Environment or Owner tag leaves the corresponding
report field at the literal placeholder "N/A", as do a missing Tags list
(covered by noTagKey holding vacuously), a missing private address and a
missing instance type; the tag scan is a total function, so extraction
cannot fail. -/
theorem C5_missing_fields_default (inst : Ec2Instance) :
    (noTagKey inst.tags "Name" → (extractTags inst.tags).1 = "N/A") ∧
    (noTagKey inst.tags "Environment" → (extractTags inst.tags).2.1 = "N/A") ∧
    (noTagKey inst.tags "Owner" → (extractTags inst.tags).2.2 = "N/A") ∧
    (inst.privateIpAddress = none → instanceIpOf inst = "N/A") ∧
    (inst.instanceType = none → instanceTypeOf inst = "N/A") := by
  refine ⟨fun h => ?_, fun h => ?_, fun h => ?_, fun h => ?_, fun h => ?_⟩
  · rcases htags : inst.tags with _ | ts
    · rfl
    · exact foldl_tagStep_fst ts ("N/A", "N/A", "N/A") (fun tg hm => h ts htags tg hm)
  · rcases htags : inst.tags with _ | ts
    · rfl
    · exact foldl_tagStep_env ts ("N/A", "N/A", "N/A") (fun tg hm => h ts htags tg hm)
  · rcases htags : inst.tags with _ | ts
    · rfl
    · exact foldl_tagStep_owner ts ("N/A", "N/A", "N/A") (fun tg hm => h ts htags tg hm)
  · simp [instanceIpOf, h]
  · simp [instanceTypeOf, h]

/-- Witness for C5: the fixture with no Tags list, no private address and
no instance type reports "N/A" everywhere. -/
theorem C5_missing_fields_default_witness :
    (extractTags instStopping.tags).1 = "N/A" ∧
    (extractTags instStopping.tags).2.1 = "N/A" ∧
    (extractTags instStopping.tags).2.2 = "N/A" ∧
    instanceIpOf instStopping = "N/A" ∧
    instanceTypeOf instStopping = "N/A" :=
  have h := C5_missing_fields_default instStopping
  have hn : ∀ k, noTagKey instStopping.tags k := fun _ _ hts => by
    simp [instStopping] at hts
  ⟨h.1 (hn "Name"), h.2.1 (hn "Environment"), h.2.2.1 (hn "Owner"),
   h.2.2.2.1 rfl, h.2.2.2.2 rfl⟩

/-- C6: if the startup SSM lookup of the SNS topic parameter fails, the
exception is re-raised by get_sns_topic_arn, module initialisation fails
with that exception, and no provider call at all is made: the instance
list is never fetched and nothing is started, stopped or published. -/
theorem C6_fatal_startup_failure (ssm : SsmClient) (envP : Option String)
    (p : Provider) (t : Nat) (eT dur : String) (e : String)
    (h : ssm.getParameter (envP.getD "ec2-notification-sns") = Except.error e) :
    get_sns_topic_arn ssm envP = Except.error e ∧
    (runModule ssm envP p t eT dur).result = Except.error e ∧
    (runModule ssm envP p t eT dur).calls = [] ∧
    (runModule ssm envP p t eT dur).reports = [] := by
  have hg : get_sns_topic_arn ssm envP = Except.error e := by
    simp [get_sns_topic_arn, h]
  refine ⟨hg, ?_, ?_, ?_⟩ <;> simp [runModule, hg]

/-- Witness for C6: with the always-failing SSM client the run makes no
provider call. -/
theorem C6_fatal_startup_failure_witness :
    (runModule failingSsm none trivialProvider 20000 "T" "0").result =
      Except.error "parameter-missing" ∧
    (runModule failingSsm none trivialProvider 20000 "T" "0").calls = [] :=
  have h := C6_fatal_startup_failure failingSsm none trivialProvider 20000
    "T" "0" "parameter-missing" rfl
  ⟨h.2.1, h.2.2.1⟩

/-- C7: send_sns_notification catches a failing publish call and returns
normally (its Python-level result is ok for every provider), and it
attempts the publish exactly once, so no retry happens and a notification
failure never propagates into instance processing. -/
theorem C7_fire_and_forget (p : Provider) (arn subj msg : String) :
    (send_sns_notification p arn subj msg).result = Except.ok () ∧
    (send_sns_notification p arn subj msg).calls =
      [ApiCall.snsPublish arn subj msg] :=
  ⟨send_sns_notification_result p arn subj msg,
   send_sns_notification_calls p arn subj msg⟩

/-- Witness for C7: under the provider whose publish always raises, the
function still returns normally after its single publish attempt. -/
theorem C7_fire_and_forget_witness :
    (send_sns_notification failingSnsProvider "arn" "S" "M").result =
      Except.ok () ∧
    (send_sns_notification failingSnsProvider "arn" "S" "M").calls =
      [ApiCall.snsPublish "arn" "S" "M"] :=
  C7_fire_and_forget failingSnsProvider "arn" "S" "M"

/-- C8: an instance already in the target state for the current time
(running inside the window, stopped outside it) is a no-op: no provider
call at all is issued for it, so running the evaluation twice yields the
same provider effect as running it once. -/
theorem C8_idempotent_noop (p : Provider) (arn : String) (t : Nat)
    (eT dur : String) (inst : Ec2Instance)
    (h : (inWindow t = true ∧ inst.stateName = "running") ∨
         (inWindow t = false ∧ inst.stateName = "stopped")) :
    (processInstance p arn t eT dur inst).calls = [] ∧
    (processInstance p arn t eT dur inst).calls ++
        (processInstance p arn t eT dur inst).calls =
      (processInstance p arn t eT dur inst).calls := by
  have hc : (processInstance p arn t eT dur inst).calls = [] := by
    rcases h with ⟨hw, hs⟩ | ⟨hw, hs⟩ <;> simp [processInstance, hw, hs]
  exact ⟨hc, by rw [hc]; rfl⟩

/-- Witness for C8: the running fixture inside the window gets no call. -/
theorem C8_idempotent_noop_witness :
    (processInstance trivialProvider "arn" 20000 "T" "0" instRunning).calls = [] ∧
    (processInstance trivialProvider "arn" 20000 "T" "0" instRunning).calls ++
        (processInstance trivialProvider "arn" 20000 "T" "0" instRunning).calls =
      (processInstance trivialProvider "arn" 20000 "T" "0" instRunning).calls :=
  C8_idempotent_noop trivialProvider "arn" 20000 "T" "0" instRunning
    (Or.inl ⟨by decide, rfl⟩)

/-- C9: whenever describe_instances succeeds, lambda_handler returns the
fixed response with statusCode 200 and the fixed body, for every provider,
including one on which every per-instance start, stop and publish call
fails; the return value carries no per-instance failure information. -/
theorem C9_unconditional_response (p : Provider) (arn : String) (t : Nat)
    (eT dur : String) (reservations : List Reservation)
    (h : p.describeResult = Except.ok reservations) :
    (lambda_handler p arn t eT dur).result = Except.ok
      { statusCode := 200,
        body := "EC2 start/stop check completed successfully." } := by
  simp [lambda_handler, h]

/-- Witness for C9: the all-failing provider with two instances inside the
window still gets the fixed 200 response. -/
theorem C9_unconditional_response_witness :
    (lambda_handler allFailProvider "arn" 20000 "T" "0").result = Except.ok
      { statusCode := 200,
        body := "EC2 start/stop check completed successfully." } :=
  C9_unconditional_response allFailProvider "arn" 20000 "T" "0"
    [{ instances := [instStopped, instRunning] }] rfl

/-- C10: in every success notification the Current State field is the
assumed target state, the constant "running" after a successful start and
the constant "stopped" after a successful stop, while the Previous State
field is the state read at enumeration time (inst.stateName); the state is
never re-queried: no describe call appears in the per-instance trace. -/
theorem C10_assumed_current_state (p : Provider) (arn : String) (t : Nat)
    (eT dur : String) (inst : Ec2Instance) :
    (inWindow t = true → inst.stateName = "stopped" →
      p.startResult inst.instanceId = Except.ok () →
      (processInstance p arn t eT dur inst).notif =
        some ("EC2 Instance " ++ "STARTED",
          buildSuccessMessage "STARTED" inst.instanceId
            (extractTags inst.tags).1 region (instanceTypeOf inst)
            inst.stateName "running" (extractTags inst.tags).2.1
            (extractTags inst.tags).2.2 eT dur)) ∧
    (inWindow t = false → inst.stateName = "running" →
      p.stopResult inst.instanceId = Except.ok () →
      (processInstance p arn t eT dur inst).notif =
        some ("EC2 Instance " ++ "STOPPED",
          buildSuccessMessage "STOPPED" inst.instanceId
            (extractTags inst.tags).1 region (instanceTypeOf inst)
            inst.stateName "stopped" (extractTags inst.tags).2.1
            (extractTags inst.tags).2.2 eT dur)) ∧
    ApiCall.describeInstances ∉ (processInstance p arn t eT dur inst).calls := by
  refine ⟨fun hw hs hok => ?_, fun hw hs hok => ?_, ?_⟩
  · simp [processInstance, hw, hs, hok]
  · simp [processInstance, hw, hs, hok]
  · by_cases hw : inWindow t
    · by_cases hs : inst.stateName == "stopped"
      · cases hr : p.startResult inst.instanceId <;>
          simp [processInstance, hw, hs, hr, send_sns_notification_calls]
      · simp [processInstance, hw, hs]
    · by_cases hs : inst.stateName == "running"
      · cases hr : p.stopResult inst.instanceId <;>
          simp [processInstance, hw, hs, hr, send_sns_notification_calls]
      · simp [processInstance, hw, hs]

/-- Witness for C10: the started fixture's notification shows Previous
State "stopped" (the enumeration-time state) and Current State "running"
(the assumed target). -/
theorem C10_assumed_current_state_witness :
    (processInstance trivialProvider "arn" 20000 "T" "0" instStopped).notif =
      some ("EC2 Instance " ++ "STARTED",
        buildSuccessMessage "STARTED" instStopped.instanceId
          (extractTags instStopped.tags).1 region (instanceTypeOf instStopped)
          instStopped.stateName "running" (extractTags instStopped.tags).2.1
          (extractTags instStopped.tags).2.2 "T" "0") :=
  (C10_assumed_current_state trivialProvider "arn" 20000 "T" "0" instStopped).1
    (by decide) rfl rfl

end Ec2Scheduler
